import Mathlib

/-!
Verification of the compliance event processing and remediation engine of the
cloud-governance platform, as a shallow embedding of the two Lambda handlers
(`policy-engine/src/handler.py` and `remediation-engine/src/handler.py`).

Conventions of the embedding:
* Python dicts holding records become Lean structures; a field read with
  `d.get(key, default)` is modelled either as an `Option` field read with
  `Option.getD`, or directly as the defaulted value when the two are
  indistinguishable to the code under study.
* AWS clients become explicit oracles: a DynamoDB table is an association
  list keyed by (partition key, sort key); a client error is an injected
  fault value; a Lambda invocation is an emitted effect.
* Epoch times (`time.time()`, `expires_at`) are `Nat`; ISO timestamps stay
  `String` since the code only moves them around.
* The field `annotation` of the Python records is called `annot` here.
-/

/-! ## Policy engine: severity classification (`RULE_SEVERITY`, `classify_severity`) -/

/-- The static severity table of `policy-engine/src/handler.py` (lines 54-70),
in the source's insertion order. Severities are the strings the source uses. -/
def RULE_SEVERITY : List (String × String) :=
  [("required-tags", "LOW"),
   ("s3-bucket-public-read-prohibited", "LOW"),
   ("s3-bucket-level-public-access-prohibited", "LOW"),
   ("restricted-ssh", "LOW"),
   ("restricted-rdp", "LOW"),
   ("s3-bucket-public-write-prohibited", "MEDIUM"),
   ("restricted-common-ports", "MEDIUM"),
   ("ec2-instance-managed-by-ssm", "HIGH"),
   ("iam-user-mfa-enabled", "HIGH"),
   ("root-account-mfa-enabled", "HIGH")]

/-- `classify_severity`: `RULE_SEVERITY.get(rule_name, "MEDIUM")`. -/
def classify_severity (rule_name : String) : String :=
  (RULE_SEVERITY.lookup rule_name).getD "MEDIUM"

/-! ## Policy engine: exception resolver (`check_exception`) -/

/-- An item of the exceptions (waiver) store. `reason` and `approved_by` are
read by the source with `.get(_, "")`, so an absent attribute and `""` are
indistinguishable; `expires_at` is tested for presence, so it is an `Option`. -/
structure ExceptionItem where
  status : String
  expires_at : Option Nat
  reason : String
  approved_by : String
deriving DecidableEq

/-- Result of a DynamoDB `get_item`: a found/absent item, or a `ClientError`. -/
inductive DbGet (α : Type) where
  | ok : Option α → DbGet α
  | clientError : DbGet α
deriving DecidableEq

/-- The exceptions-store backend: whether `EXCEPTIONS_TABLE` is configured,
and the behaviour of `get_item` keyed by (partition key, sort key). -/
structure ExceptionsBackend where
  configured : Bool
  get_item : String → String → DbGet ExceptionItem

/-- Partition key used by `check_exception`. -/
def exception_pk (account_id resource_id : String) : String :=
  "EXCEPTION#" ++ account_id ++ "#" ++ resource_id

/-- Sort key used by `check_exception`. -/
def exception_sk (rule_name : String) : String :=
  "RULE#" ++ rule_name

/-- `check_exception` (policy engine, lines 161-202): returns the stored item
when it exists, has `status == "approved"`, and the expiry guard does not
reject it. The guard `if expires_at:` is a Python truthiness test, false for
an absent expiry and also for a stored expiry of `0`; only a truthy (nonzero)
expiry is compared, and `int(expires_at) < int(time.time())` rejects. A
`ClientError` from the store is logged and mapped to `none`. -/
def check_exception (be : ExceptionsBackend) (now : Nat)
    (account_id resource_id rule_name : String) : Option ExceptionItem :=
  if be.configured = false then none
  else
    match be.get_item (exception_pk account_id resource_id) (exception_sk rule_name) with
    | .clientError => none
    | .ok none => none
    | .ok (some item) =>
      if item.status ≠ "approved" then none
      else
        match item.expires_at with
        | some e =>
          if e ≠ 0 then
            if e < now then none else some item
          else some item
        | none => some item

/-! ## Policy engine: event normalizer (`parse_compliance_event`) -/

/-- The `newEvaluationResult` sub-object of a Config compliance event.
Fields are `Option` because the source reads them with `.get`. -/
structure EvalResult where
  complianceType : Option String
  annot : Option String
deriving DecidableEq

/-- The `detail` sub-object of the inbound event envelope. -/
structure EventDetail where
  messageType : Option String
  resourceId : Option String
  resourceType : Option String
  configRuleName : Option String
  newEvaluationResult : Option EvalResult
deriving DecidableEq

/-- The inbound EventBridge envelope, with the fields the handler reads. -/
structure InboundEvent where
  account : Option String
  region : Option String
  time : Option String
  id : Option String
  detail : Option EventDetail
deriving DecidableEq

/-- The canonical violation record built by `parse_compliance_event` and
enriched downstream. `severity` starts absent and is written by the handler;
`exception_applied` / `exception_reason` start at their dict-absent readings
(`False` / `""`). -/
structure ViolationRecord where
  account_id : String
  region : String
  resource_id : String
  resource_type : String
  rule_name : String
  compliance_type : String
  annot : String
  timestamp : String
  event_id : String
  severity : Option String
  exception_applied : Bool
  exception_reason : String
deriving DecidableEq

/-- `parse_compliance_event` (policy engine, lines 205-232). The source takes
`detail = event.get("detail", {})`, rejects (returns `None`) exactly when
`detail.get("messageType") != "ComplianceChangeNotification"`, and otherwise
builds the record with every other field defaulted: absent identity fields
become `""`, an absent `time` becomes the current ISO instant (`now_iso`).
An absent `detail` is the empty dict, whose `messageType` is absent. -/
def parse_compliance_event (now_iso : String) (event : InboundEvent) :
    Option ViolationRecord :=
  match event.detail with
  | none => none
  | some d =>
    if d.messageType ≠ some "ComplianceChangeNotification" then none
    else
      some
        { account_id := event.account.getD ""
          region := event.region.getD ""
          resource_id := d.resourceId.getD ""
          resource_type := d.resourceType.getD ""
          rule_name := d.configRuleName.getD ""
          compliance_type := ((d.newEvaluationResult.map EvalResult.complianceType).getD none).getD ""
          annot := ((d.newEvaluationResult.map EvalResult.annot).getD none).getD ""
          timestamp := event.time.getD now_iso
          event_id := event.id.getD ""
          severity := none
          exception_applied := false
          exception_reason := "" }

/-! ## Policy engine: history recorder (`persist_compliance_record`) -/

/-- The item written to the compliance-history table (policy engine,
lines 263-282). `exception_applied`/`exception_reason` are only written when
the flag is set; an absent attribute is modelled as `false`/`""`. -/
structure HistoryItem where
  pk : String
  sk : String
  account_id : String
  region : String
  resource_id : String
  resource_type : String
  rule_name : String
  compliance_type : String
  severity : String
  annot : String
  event_id : String
  processed_at : String
  ttl : Nat
  exception_applied : Bool
  exception_reason : String
deriving DecidableEq

/-- Partition key of the history table: `ACCOUNT#{account_id}#RESOURCE#{resource_id}`. -/
def history_pk (d : ViolationRecord) : String :=
  "ACCOUNT#" ++ d.account_id ++ "#RESOURCE#" ++ d.resource_id

/-- Sort key of the history table: `TIMESTAMP#{timestamp}`. -/
def history_sk (d : ViolationRecord) : String :=
  "TIMESTAMP#" ++ d.timestamp

/-- Composite key of the history table. -/
def history_key (d : ViolationRecord) : String × String :=
  (history_pk d, history_sk d)

/-- Retention horizon: two years of seconds, `365 * 2 * 24 * 60 * 60`. -/
def TTL_SECONDS : Nat := 365 * 2 * 24 * 60 * 60

/-- The item `persist_compliance_record` builds from a violation record:
severity read with `.get("severity", "UNKNOWN")`, `ttl = now + 2 years`,
exception attributes only when `exception_applied` is set. -/
def mk_history_item (now : Nat) (processed_at : String) (d : ViolationRecord) :
    HistoryItem :=
  { pk := history_pk d
    sk := history_sk d
    account_id := d.account_id
    region := d.region
    resource_id := d.resource_id
    resource_type := d.resource_type
    rule_name := d.rule_name
    compliance_type := d.compliance_type
    severity := d.severity.getD "UNKNOWN"
    annot := d.annot
    event_id := d.event_id
    processed_at := processed_at
    ttl := now + TTL_SECONDS
    exception_applied := d.exception_applied
    exception_reason := if d.exception_applied then d.exception_reason else "" }

/-- The history table: an association list keyed by (pk, sk). -/
abbrev HistoryTable := List ((String × String) × HistoryItem)

/-- Outcome of `persist_compliance_record`: normal return, or a re-raised
backend error code. -/
inductive PersistResult where
  | success
  | raised (code : String)
deriving DecidableEq

/-- `persist_compliance_record` (policy engine, lines 248-295). The write is
`put_item` with `ConditionExpression "attribute_not_exists(pk) OR
attribute_not_exists(sk)"`: every stored item carries both key attributes, so
the condition fails exactly when an item already exists under the key; the
resulting `ConditionalCheckFailedException` is caught and treated as success
("already recorded") with no write, while any other `ClientError` (modelled by
the injected `fault` code) is re-raised. With no fault and a fresh key the
item is inserted. -/
def persist_compliance_record (fault : Option String) (now : Nat)
    (processed_at : String) (tbl : HistoryTable) (d : ViolationRecord) :
    HistoryTable × PersistResult :=
  match fault with
  | some code =>
    if code = "ConditionalCheckFailedException" then (tbl, .success)
    else (tbl, .raised code)
  | none =>
    if (tbl.lookup (history_key d)).isSome then (tbl, .success)
    else ((history_key d, mk_history_item now processed_at d) :: tbl, .success)

/-! ## Policy engine: router (`lambda_handler`) -/

/-- `get_action_for_severity` (policy engine, lines 350-356). -/
def get_action_for_severity (severity : String) : String :=
  ([("LOW", "auto_remediate"), ("MEDIUM", "notify"),
    ("HIGH", "log_only")].lookup severity).getD "unknown"

/-- Downstream invocations the policy engine can emit. -/
inductive PEEffect where
  | remediationInvoked (d : ViolationRecord)
  | notificationInvoked (d : ViolationRecord)
deriving DecidableEq

/-- Abstracted response bodies of the policy-engine handler. -/
inductive PEBody where
  | skippedNotCompliance
  | skippedCompliant
  | skippedException (reason approved_by : String)
  | processed (severity action : String)
deriving DecidableEq

/-- Outcome of a policy-engine invocation: an HTTP-style return, or an
uncaught exception propagated to the caller. -/
inductive PEOutcome where
  | returned (statusCode : Nat) (body : PEBody)
  | raised (code : String)
deriving DecidableEq

/-- Static configuration of the policy engine. -/
structure PEConfig where
  exceptions : ExceptionsBackend
  remediation_lambda : String
  notification_lambda : String

/-- The external world an invocation observes: clocks and injected faults of
the history write and of the two `lambda.invoke` calls. -/
structure PEWorld where
  now : Nat
  now_iso : String
  processed_at : String
  persistFault : Option String
  remediationInvokeErr : Bool
  notificationInvokeErr : Bool

/-- `lambda_handler` of the policy engine (lines 73-158): parse, skip
COMPLIANT, divert approved exceptions (persist with `exception_applied`, no
dispatch), else classify, persist, route by severity. `invoke_remediation` /
`invoke_notification` silently return when the target Lambda is unconfigured
and re-raise a `ClientError` of the invocation (here the `...InvokeErr`
flags), which the outer handler propagates; a persist fault other than the
conditional-check collision also propagates. -/
def pe_lambda_handler (cfg : PEConfig) (w : PEWorld) (tbl : HistoryTable)
    (event : InboundEvent) : HistoryTable × List PEEffect × PEOutcome :=
  match parse_compliance_event w.now_iso event with
  | none => (tbl, [], .returned 200 .skippedNotCompliance)
  | some data =>
    if data.compliance_type ≠ "NON_COMPLIANT" then
      (tbl, [], .returned 200 .skippedCompliant)
    else
      match check_exception cfg.exceptions w.now data.account_id
          data.resource_id data.rule_name with
      | some exc =>
        let data2 := { data with exception_applied := true,
                                 exception_reason := exc.reason }
        match persist_compliance_record w.persistFault w.now w.processed_at tbl data2 with
        | (tbl2, .success) =>
          (tbl2, [], .returned 200 (.skippedException exc.reason exc.approved_by))
        | (tbl2, .raised code) => (tbl2, [], .raised code)
      | none =>
        let sev := classify_severity data.rule_name
        let data3 := { data with severity := some sev }
        match persist_compliance_record w.persistFault w.now w.processed_at tbl data3 with
        | (tbl2, .raised code) => (tbl2, [], .raised code)
        | (tbl2, .success) =>
          if sev = "LOW" then
            if cfg.remediation_lambda = "" then
              (tbl2, [], .returned 200 (.processed sev (get_action_for_severity sev)))
            else if w.remediationInvokeErr then (tbl2, [], .raised "InvokeClientError")
            else (tbl2, [.remediationInvoked data3],
                  .returned 200 (.processed sev (get_action_for_severity sev)))
          else if sev = "MEDIUM" then
            if cfg.notification_lambda = "" then
              (tbl2, [], .returned 200 (.processed sev (get_action_for_severity sev)))
            else if w.notificationInvokeErr then (tbl2, [], .raised "InvokeClientError")
            else (tbl2, [.notificationInvoked data3],
                  .returned 200 (.processed sev (get_action_for_severity sev)))
          else
            (tbl2, [], .returned 200 (.processed sev (get_action_for_severity sev)))

/-! ## Remediation engine: configuration and environment resolution -/

/-- Static configuration of the remediation engine (environment variables of
`remediation-engine/src/handler.py`, lines 34-42). -/
structure REConfig where
  remediation_role_name : String
  external_id : String
  notification_lambda : String
  account_environment_map : List (String × String)
  prod_account_id : String

/-- `get_environment_for_account` (lines 175-180):
`ACCOUNT_ENVIRONMENT_MAP.get(account_id, "unknown")`. -/
def get_environment_for_account (cfg : REConfig) (account_id : String) : String :=
  (cfg.account_environment_map.lookup account_id).getD "unknown"

/-- `is_production_account` (lines 183-191): true when `PROD_ACCOUNT_ID` is
non-empty and equal to the account, or when the environment map resolves the
account to `"prod"`. -/
def is_production_account (cfg : REConfig) (account_id : String) : Bool :=
  if cfg.prod_account_id ≠ "" ∧ account_id = cfg.prod_account_id then true
  else get_environment_for_account cfg account_id = "prod"

/-! ## Remediation engine: default tags -/

/-- `DEFAULT_TAGS_BY_ENV` (lines 45-81), dicts in source insertion order. -/
def DEFAULT_TAGS_BY_ENV : List (String × List (String × String)) :=
  [("dev",
    [("Owner", "Platform-Engineering"), ("CostCenter", "DEV-001"),
     ("Project", "CloudGovernancePlatform"), ("Environment", "dev"),
     ("ManagedBy", "Terraform")]),
   ("staging",
    [("Owner", "Platform-Engineering"), ("CostCenter", "STG-001"),
     ("Project", "CloudGovernancePlatform"), ("Environment", "staging"),
     ("ManagedBy", "Terraform")]),
   ("prod",
    [("Owner", "Platform-Engineering"), ("CostCenter", "PROD-001"),
     ("Project", "CloudGovernancePlatform"), ("Environment", "prod"),
     ("ManagedBy", "Terraform")]),
   ("governance",
    [("Owner", "Platform-Engineering"), ("CostCenter", "INFRA-001"),
     ("Project", "CloudGovernancePlatform"), ("Environment", "governance"),
     ("ManagedBy", "Terraform")]),
   ("tooling",
    [("Owner", "Platform-Engineering"), ("CostCenter", "CICD-001"),
     ("Project", "CloudGovernancePlatform"), ("Environment", "tooling"),
     ("ManagedBy", "Terraform")])]

/-- `DEFAULT_TAGS_FALLBACK` (lines 84-90). -/
def DEFAULT_TAGS_FALLBACK : List (String × String) :=
  [("Owner", "Platform-Engineering"), ("CostCenter", "UNKNOWN-001"),
   ("Project", "CloudGovernancePlatform"), ("Environment", "unknown"),
   ("ManagedBy", "Terraform")]

/-- `get_tags_for_environment` (lines 354-360): the environment's dict, or the
fallback dict, as a (Key, Value) list in dict iteration (insertion) order. -/
def get_tags_for_environment (environment : String) : List (String × String) :=
  (DEFAULT_TAGS_BY_ENV.lookup environment).getD DEFAULT_TAGS_FALLBACK

/-- The tag-merge computation of the S3 branch of `remediate_required_tags`
(lines 396-398): keep every current tag and append exactly those tags to add
whose key is not already present.
`new_tags = current_tags + [t for t in tags_to_add if t.Key not in existing_keys]`. -/
def merge_tags (current tags_to_add : List (String × String)) :
    List (String × String) :=
  current ++ tags_to_add.filter (fun t => !((current.map Prod.fst).contains t.1))

/-- Modelled from the spec: the server-side merge performed by the AWS tagging
services used for the non-S3 resource types (EC2 `CreateTags`, DynamoDB and
Lambda `TagResource`, RDS `AddTagsToResource`) is code of an external
collaborator, not of this repository; the spec describes it as merging the
tag set onto the resource "without overwriting any tag key the resource
already has" (list-merge for containers/instances; dictionary-merge for
function resources). For the Lambda branch the source first converts the tag
list to a dict; the list originates from a dict, so its keys are distinct and
the conversion is lossless. -/
def aws_merge_tags (current tags_to_add : List (String × String)) :
    List (String × String) :=
  current ++ tags_to_add.filter (fun t => !((current.map Prod.fst).contains t.1))

/-- `remediate_required_tags` (lines 363-433) as the final tag set of the
resource: the S3 branch is the in-source read-modify-write `merge_tags` (a
missing tag set reads as `[]`, supplied by the caller as `current`); the
other known resource types hand `get_tags_for_environment environment` to
their spec-modelled merging AWS API; an unknown resource type is logged and
skipped (`none`). -/
def remediate_required_tags (resource_type environment : String)
    (current : List (String × String)) : Option (List (String × String)) :=
  let tags_to_add := get_tags_for_environment environment
  if resource_type = "AWS::EC2::Instance" then some (aws_merge_tags current tags_to_add)
  else if resource_type = "AWS::S3::Bucket" then some (merge_tags current tags_to_add)
  else if resource_type = "AWS::DynamoDB::Table" then some (aws_merge_tags current tags_to_add)
  else if resource_type = "AWS::Lambda::Function" then some (aws_merge_tags current tags_to_add)
  else if resource_type = "AWS::RDS::DBInstance" then some (aws_merge_tags current tags_to_add)
  else if resource_type = "AWS::EC2::SecurityGroup" then some (aws_merge_tags current tags_to_add)
  else none

/-! ## Remediation engine: security-group ingress revocation -/

/-- An entry of `IpRanges` in a security-group permission. -/
structure IpRange where
  CidrIp : Option String
deriving DecidableEq

/-- An entry of `Ipv6Ranges` in a security-group permission. -/
structure Ipv6Range where
  CidrIpv6 : Option String
deriving DecidableEq

/-- One ingress permission of a security group, with the fields the code
reads. The port bounds are read with `rule.get("FromPort", 0)` /
`rule.get("ToPort", 0)`, so an absent bound reads as `0` and the source's
subsequent `is not None` guard always holds under this representation. -/
structure IpPermission where
  IpProtocol : Option String
  FromPort : Option Int
  ToPort : Option Int
  IpRanges : List IpRange
  Ipv6Ranges : List Ipv6Range
deriving DecidableEq

/-- The sensitive port of a rule family: `22 if rule_name == "restricted-ssh"
else 3389` (line 290). -/
def target_port (rule_name : String) : Int :=
  if rule_name = "restricted-ssh" then 22 else 3389

/-- `dangerous_cidrs` (line 291). -/
def dangerous_cidrs : List String := ["0.0.0.0/0", "::/0"]

/-- The source of one revoked entry: a single IPv4 or IPv6 CIDR. -/
inductive RevokeSource where
  | v4 (cidr : String)
  | v6 (cidr : String)
deriving DecidableEq

/-- One element of `rules_to_revoke`: the source builds, per matching CIDR, a
permission dict holding the protocol, the port bounds, and exactly that one
CIDR, and issues one `revoke_security_group_ingress` call per element. -/
structure RevokeEntry where
  ipProtocol : String
  fromPort : Int
  toPort : Int
  source : RevokeSource
deriving DecidableEq

/-- The `rules_to_revoke` computation of `remediate_security_group`
(lines 302-334): walk every ingress permission; skip it unless
`from_port <= target_port <= to_port` (bounds defaulted to 0 when absent);
within a kept permission, emit one revoke entry per IPv4 range whose `CidrIp`
is in `dangerous_cidrs` and one per IPv6 range whose `CidrIpv6` is, each
carrying the permission's protocol (defaulted to "tcp") and port bounds and
that single CIDR. -/
def rules_to_revoke (rule_name : String) (perms : List IpPermission) :
    List RevokeEntry :=
  let tp := target_port rule_name
  perms.flatMap fun r =>
    let fp := r.FromPort.getD 0
    let tpo := r.ToPort.getD 0
    if fp ≤ tp ∧ tp ≤ tpo then
      (r.IpRanges.filterMap fun ir =>
        match ir.CidrIp with
        | some c =>
          if c ∈ dangerous_cidrs then
            some ⟨r.IpProtocol.getD "tcp", fp, tpo, RevokeSource.v4 c⟩
          else none
        | none => none) ++
      (r.Ipv6Ranges.filterMap fun ir =>
        match ir.CidrIpv6 with
        | some c =>
          if c ∈ dangerous_cidrs then
            some ⟨r.IpProtocol.getD "tcp", fp, tpo, RevokeSource.v6 c⟩
          else none
        | none => none)
    else []

/-! ## Remediation engine: handler -/

/-- The `compliance_data` payload of a remediation request. The handler reads
each field with `.get`, and `if not all([...])` rejects both an absent field
and an empty string, so an absent field is modelled as `""`. -/
structure ComplianceData where
  account_id : String
  rule_name : String
  resource_id : String
  region : String
  resource_type : String
  severity : String
  annot : String
deriving DecidableEq

/-- A remediation request event: `{action, compliance_data}`. -/
structure REEvent where
  action : String
  compliance_data : ComplianceData
deriving DecidableEq

/-- Observable external actions of one remediation-engine invocation. -/
inductive REEffect where
  | assumedRole (account_id : String)
  | s3PublicAccessBlock (bucket : String)
  | sgRevoke (security_group_id : String) (entry : RevokeEntry)
  | tagsSet (resource_id : String) (tags : List (String × String))
  | notified (payload : ComplianceData)
deriving DecidableEq

/-- Abstracted response bodies of the remediation-engine handler. -/
inductive REBody where
  | unknownAction
  | missingFields
  | prodSafetyNotified
  | remediated
  | noRemediationDefined
deriving DecidableEq

/-- Outcome of a remediation-engine invocation. -/
inductive REOutcome where
  | returned (statusCode : Nat) (body : REBody)
  | raised (code : String)
deriving DecidableEq

/-- The external world of one remediation-engine invocation: injected
`ClientError`s of `sts.assume_role`, of the remediation API calls, and of the
notification `lambda.invoke`; the security groups visible to
`describe_security_groups`; and the current tags of each resource. -/
structure REWorld where
  assumeRoleErr : Bool
  actionErr : Bool
  notifyInvokeErr : Bool
  securityGroups : String → Option (List IpPermission)
  currentTags : String → List (String × String)

/-- `notify_instead_of_remediate` (lines 194-219): no-op when
`NOTIFICATION_LAMBDA` is unconfigured; otherwise invoke it with the
compliance data escalated to `severity = "HIGH"` and the blocking annotation;
a `ClientError` of the invocation is logged and swallowed. -/
def notify_instead_of_remediate (cfg : REConfig) (invokeErr : Bool)
    (cd : ComplianceData) (reason : String) : List REEffect :=
  if cfg.notification_lambda = "" then []
  else if invokeErr then []
  else [.notified { cd with severity := "HIGH",
                            annot := reason ++ ". Manual intervention required." }]

/-- `lambda_handler` of the remediation engine (lines 96-172): reject unknown
actions (400) and missing fields (400); veto the two security-group rule
families on production accounts, notifying instead and returning 200; else
assume the cross-account role (a `ClientError` propagates) and dispatch on
the rule name. The three S3 rules all enable Public Access Block; the
security-group branch revokes `rules_to_revoke` one entry per call (a missing
group is logged and the invocation still returns 200); the tag branch applies
`remediate_required_tags`; an unknown rule is a logged no-op returning 200.
A `ClientError` of any remediation API call (`actionErr`) propagates. -/
def re_lambda_handler (cfg : REConfig) (w : REWorld) (event : REEvent) :
    List REEffect × REOutcome :=
  if event.action ≠ "remediate" then ([], .returned 400 .unknownAction)
  else
    let cd := event.compliance_data
    if cd.account_id = "" ∨ cd.rule_name = "" ∨ cd.resource_id = "" ∨ cd.region = "" then
      ([], .returned 400 .missingFields)
    else
      let environment := get_environment_for_account cfg cd.account_id
      if (cd.rule_name = "restricted-ssh" ∨ cd.rule_name = "restricted-rdp") ∧
          is_production_account cfg cd.account_id then
        (notify_instead_of_remediate cfg w.notifyInvokeErr cd
           "Production safety: SG remediation blocked",
         .returned 200 .prodSafetyNotified)
      else if w.assumeRoleErr then ([], .raised "AssumeRoleClientError")
      else
        let roleEff : List REEffect := [.assumedRole cd.account_id]
        if cd.rule_name = "s3-bucket-public-read-prohibited" ∨
           cd.rule_name = "s3-bucket-level-public-access-prohibited" ∨
           cd.rule_name = "s3-bucket-public-write-prohibited" then
          if w.actionErr then (roleEff, .raised "ActionClientError")
          else (roleEff ++ [.s3PublicAccessBlock cd.resource_id], .returned 200 .remediated)
        else if cd.rule_name = "required-tags" then
          if w.actionErr then (roleEff, .raised "ActionClientError")
          else
            match remediate_required_tags cd.resource_type environment
                (w.currentTags cd.resource_id) with
            | some finalTags =>
              (roleEff ++ [.tagsSet cd.resource_id finalTags], .returned 200 .remediated)
            | none => (roleEff, .returned 200 .remediated)
        else if cd.rule_name = "restricted-ssh" ∨ cd.rule_name = "restricted-rdp" then
          if w.actionErr then (roleEff, .raised "ActionClientError")
          else
            match w.securityGroups cd.resource_id with
            | none => (roleEff, .returned 200 .remediated)
            | some perms =>
              (roleEff ++ (rules_to_revoke cd.rule_name perms).map
                 (REEffect.sgRevoke cd.resource_id),
               .returned 200 .remediated)
        else (roleEff, .returned 200 .noRemediationDefined)

/-! ## Helper lemmas -/

/-- A key absent from an association list's key column looks up to `none`. -/
theorem lookup_eq_none_of_not_mem_keys {β : Type} (k : String)
    (l : List (String × β)) (h : k ∉ l.map Prod.fst) : l.lookup k = none := by
  induction l with
  | nil => rfl
  | cons p t ih =>
    simp only [List.map_cons, List.mem_cons] at h
    push_neg at h
    obtain ⟨h1, h2⟩ := h
    have hb : (k == p.1) = false := beq_eq_false_iff_ne.mpr h1
    cases p with
    | mk a b =>
      simp only [List.lookup]
      simp only at hb
      rw [hb]
      exact ih h2

/-! ## Claims about the severity classifier -/

/-- C5: for every rule name in the static severity table, classification
returns exactly the table's value; for every rule name not in the table it
returns MEDIUM, never HIGH and never LOW. -/
theorem spec_c5_severity_table :
    (∀ r s, (r, s) ∈ RULE_SEVERITY → classify_severity r = s) ∧
    (∀ r, r ∉ RULE_SEVERITY.map Prod.fst →
      classify_severity r = "MEDIUM" ∧
      classify_severity r ≠ "HIGH" ∧ classify_severity r ≠ "LOW") := by
  constructor
  · intro r s h
    fin_cases h <;> rfl
  · intro r h
    have : RULE_SEVERITY.lookup r = none := lookup_eq_none_of_not_mem_keys r _ h
    unfold classify_severity
    rw [this]
    exact ⟨rfl, by decide, by decide⟩

/-- C5 witness: the theorem evaluated at a mapped and an unmapped rule name. -/
theorem spec_c5_severity_table_witness :
    classify_severity "restricted-ssh" = "LOW" ∧
    classify_severity "made-up-rule" = "MEDIUM" :=
  ⟨spec_c5_severity_table.1 "restricted-ssh" "LOW" (by decide),
   (spec_c5_severity_table.2 "made-up-rule" (by decide)).1⟩

/-! ## Claims about the exception resolver -/

/-- The waiver stored by the backend of the C4 counterexample. -/
def c4_item : ExceptionItem :=
  { status := "approved", expires_at := some 100,
    reason := "migration window", approved_by := "secops" }

/-- Exceptions backend holding one approved waiver that expires at epoch 100. -/
def c4_backend : ExceptionsBackend :=
  { configured := true, get_item := fun _ _ => .ok (some c4_item) }

/-- An approved waiver whose stored expiry is the falsy epoch 0. -/
def c4_zero_item : ExceptionItem :=
  { status := "approved", expires_at := some 0,
    reason := "legacy import", approved_by := "secops" }

/-- Exceptions backend holding the zero-expiry waiver. -/
def c4_zero_backend : ExceptionsBackend :=
  { configured := true, get_item := fun _ _ => .ok (some c4_zero_item) }

/-- C4 counterexample, twice over. At `now = 100` the stored waiver's
`expires_at` equals `now`, so the claim's strict condition `expires_at > now`
fails, yet `check_exception` still grants the exception — the source only
rejects `expires_at < now`. And a waiver whose stored expiry is `0` is falsy
under the source's `if expires_at:` truthiness guard, so the expiry
comparison is skipped entirely and the waiver is granted at any `now`, here
`now = 500`, although its expiry is present and long past. -/
theorem spec_c4_counterexample :
    (check_exception c4_backend 100 "111122223333" "i-1" "required-tags" = some c4_item ∧
     c4_item.expires_at = some 100 ∧ ¬ (100 > 100)) ∧
    (check_exception c4_zero_backend 500 "111122223333" "i-1" "required-tags" = some c4_zero_item ∧
     c4_zero_item.expires_at = some 0 ∧ ¬ ((0 : Nat) > 500)) := by
  refine ⟨⟨by decide, by decide, by decide⟩, ⟨by decide, by decide, by decide⟩⟩

/-- C4 (amended): the exception lookup returns a record iff the store is
configured, holds an item under the `(account_id, resource_id, rule_name)`
key, the item's status is `"approved"`, and the expiry guard passes: the
expiry is absent, or is the falsy stored value `0` (the source's
`if expires_at:` truthiness test then skips the comparison), or is not yet
past, i.e. `expires_at ≥ now` (the source rejects only `expires_at < now`,
so a waiver expiring exactly at the current second is still granted). -/
theorem spec_c4_exception_grant (be : ExceptionsBackend) (now : Nat)
    (account_id resource_id rule_name : String) (item : ExceptionItem) :
    check_exception be now account_id resource_id rule_name = some item ↔
      (be.configured = true ∧
       be.get_item (exception_pk account_id resource_id) (exception_sk rule_name) =
         .ok (some item) ∧
       item.status = "approved" ∧
       (item.expires_at = none ∨ item.expires_at = some 0 ∨
        ∃ e, item.expires_at = some e ∧ now ≤ e)) := by
  unfold check_exception
  cases hconf : be.configured with
  | false => simp
  | true =>
    simp only [Bool.true_eq_false, if_false]
    cases hget : be.get_item (exception_pk account_id resource_id) (exception_sk rule_name) with
    | clientError => simp
    | ok oitem =>
      cases oitem with
      | none => simp
      | some it =>
        simp only [DbGet.ok.injEq, Option.some.injEq, true_and]
        obtain ⟨st, exp, rsn, apb⟩ := it
        by_cases hst : st = "approved"
        · subst hst
          rw [if_neg (by simp)]
          cases exp with
          | none =>
            dsimp only
            refine ⟨fun h => ?_, fun h => ?_⟩
            · injection h with h
              subst h
              exact ⟨rfl, rfl, Or.inl rfl⟩
            · obtain ⟨h2, -, -⟩ := h
              subst h2
              rfl
          | some e =>
            dsimp only
            by_cases he0 : e = 0
            · subst he0
              rw [if_neg (by simp)]
              refine ⟨fun h => ?_, fun h => ?_⟩
              · injection h with h
                subst h
                exact ⟨rfl, rfl, Or.inr (Or.inl rfl)⟩
              · obtain ⟨h2, -, -⟩ := h
                subst h2
                rfl
            · rw [if_pos he0]
              by_cases hlt : e < now
              · rw [if_pos hlt]
                refine ⟨fun h => absurd h (by simp), fun h => ?_⟩
                obtain ⟨h2, -, hor⟩ := h
                subst h2
                dsimp only at hor
                rcases hor with h | h | ⟨e2, he2, hle⟩
                · exact absurd h (by simp)
                · injection h with h
                  exact absurd h he0
                · injection he2 with he2
                  subst he2
                  omega
              · rw [if_neg hlt]
                refine ⟨fun h => ?_, fun h => ?_⟩
                · injection h with h
                  subst h
                  exact ⟨rfl, rfl, Or.inr (Or.inr ⟨e, rfl, by omega⟩)⟩
                · obtain ⟨h2, -, -⟩ := h
                  subst h2
                  rfl
        · rw [if_pos (by simpa using hst)]
          refine ⟨fun h => absurd h (by simp), fun h => ?_⟩
          obtain ⟨h2, hstat, -⟩ := h
          subst h2
          dsimp only at hstat
          exact absurd hstat hst

/-- C4 amended-claim witness: a waiver expiring at 100 is granted at 50, and
a waiver with the falsy stored expiry 0 is granted at 500. -/
theorem spec_c4_exception_grant_witness :
    check_exception c4_backend 50 "a" "r" "ru" = some c4_item ∧
    check_exception c4_zero_backend 500 "a" "r" "ru" = some c4_zero_item :=
  ⟨(spec_c4_exception_grant c4_backend 50 "a" "r" "ru" c4_item).mpr
     ⟨rfl, rfl, rfl, Or.inr (Or.inr ⟨100, rfl, by omega⟩)⟩,
   (spec_c4_exception_grant c4_zero_backend 500 "a" "r" "ru" c4_zero_item).mpr
     ⟨rfl, rfl, rfl, Or.inr (Or.inl rfl)⟩⟩

/-- C9: a `ClientError` from the waiver store is logged and mapped to `none`
(processing proceeds as if no waiver existed; nothing is propagated — the
lookup is total and returns an `Option`). -/
theorem spec_c9_lookup_error_fail_open (be : ExceptionsBackend) (now : Nat)
    (account_id resource_id rule_name : String)
    (h : be.get_item (exception_pk account_id resource_id) (exception_sk rule_name) =
      .clientError) :
    check_exception be now account_id resource_id rule_name = none := by
  unfold check_exception
  cases hconf : be.configured <;> simp [h]

/-- Backend whose every lookup fails with a `ClientError`. -/
def c9_backend : ExceptionsBackend :=
  { configured := true, get_item := fun _ _ => .clientError }

/-- C9 witness: the theorem evaluated on an always-failing backend. -/
theorem spec_c9_lookup_error_fail_open_witness :
    check_exception c9_backend 5 "acct" "res" "rule" = none :=
  spec_c9_lookup_error_fail_open c9_backend 5 "acct" "res" "rule" rfl

/-! ## Claims about the history recorder -/

/-- C3: the history write is conditional under the composite key
`(account_id, resource_id, timestamp)`: a fresh key inserts exactly one new
record; a colliding key is treated as success with no write; any other
backend error code is re-raised; and re-processing the same record leaves the
table of the first processing unchanged (never two history records). -/
theorem spec_c3_idempotent_history_write (now now2 : Nat) (pa pa2 : String)
    (tbl : HistoryTable) (d : ViolationRecord) (code : String) :
    (tbl.lookup (history_key d) = none →
      persist_compliance_record none now pa tbl d =
        ((history_key d, mk_history_item now pa d) :: tbl, .success)) ∧
    ((tbl.lookup (history_key d)).isSome →
      persist_compliance_record none now pa tbl d = (tbl, .success)) ∧
    (code ≠ "ConditionalCheckFailedException" →
      persist_compliance_record (some code) now pa tbl d = (tbl, .raised code)) ∧
    (tbl.lookup (history_key d) = none →
      persist_compliance_record none now2 pa2
          (persist_compliance_record none now pa tbl d).1 d =
        ((persist_compliance_record none now pa tbl d).1, .success)) := by
  refine ⟨fun h => ?_, fun h => ?_, fun h => ?_, fun h => ?_⟩
  · simp [persist_compliance_record, h]
  · simp [persist_compliance_record, h]
  · simp [persist_compliance_record, h]
  · have h1 : persist_compliance_record none now pa tbl d =
        ((history_key d, mk_history_item now pa d) :: tbl, .success) := by
      simp [persist_compliance_record, h]
    rw [h1]
    simp [persist_compliance_record, List.lookup]

/-- A concrete violation record for the C3 witness. -/
def c3_record : ViolationRecord :=
  { account_id := "111122223333", region := "us-east-1", resource_id := "i-1",
    resource_type := "AWS::EC2::Instance", rule_name := "required-tags",
    compliance_type := "NON_COMPLIANT", annot := "Missing tags",
    timestamp := "2024-01-01T00:00:00Z", event_id := "event-123",
    severity := some "LOW", exception_applied := false, exception_reason := "" }

/-- C3 witness: on an empty table the first write inserts, the second write
on the produced table is a no-op success, and a throttling error re-raises. -/
theorem spec_c3_idempotent_history_write_witness :
    persist_compliance_record none 10 "P" [] c3_record =
      ([(history_key c3_record, mk_history_item 10 "P" c3_record)], .success) ∧
    persist_compliance_record none 20 "Q"
        (persist_compliance_record none 10 "P" [] c3_record).1 c3_record =
      ((persist_compliance_record none 10 "P" [] c3_record).1, .success) ∧
    persist_compliance_record (some "ThrottlingException") 10 "P" [] c3_record =
      ([], .raised "ThrottlingException") :=
  ⟨(spec_c3_idempotent_history_write 10 20 "P" "Q" [] c3_record "ThrottlingException").1 rfl,
   (spec_c3_idempotent_history_write 10 20 "P" "Q" [] c3_record "ThrottlingException").2.2.2 rfl,
   (spec_c3_idempotent_history_write 10 20 "P" "Q" [] c3_record "ThrottlingException").2.2.1
     (by decide)⟩


/-! ## Claims about the event normalizer -/

/-- A well-formed compliance envelope whose `account` field is absent, for
the C7 counterexample. -/
def c7_event : InboundEvent :=
  { account := none, region := some "us-east-1",
    time := some "2024-01-01T00:00:00Z", id := some "event-1",
    detail := some
      { messageType := some "ComplianceChangeNotification",
        resourceId := some "i-1", resourceType := some "AWS::EC2::Instance",
        configRuleName := some "required-tags",
        newEvaluationResult := some
          { complianceType := some "NON_COMPLIANT", annot := some "x" } } }

/-- C7 counterexample: an envelope with the correct message-type marker but a
missing `account` identity field is NOT rejected — `parse_compliance_event`
returns a record whose `account_id` defaults to `""` instead of failing. -/
theorem spec_c7_counterexample :
    c7_event.account = none ∧
    parse_compliance_event "NOW" c7_event =
      some { account_id := "", region := "us-east-1", resource_id := "i-1",
             resource_type := "AWS::EC2::Instance", rule_name := "required-tags",
             compliance_type := "NON_COMPLIANT", annot := "x",
             timestamp := "2024-01-01T00:00:00Z", event_id := "event-1",
             severity := none, exception_applied := false,
             exception_reason := "" } :=
  ⟨rfl, by decide⟩

/-- C7 (amended): the normalizer fails (returns no record, which the caller
reports as a skipped success) exactly when the message-type marker is missing
or not `"ComplianceChangeNotification"`; missing identity fields do not cause
failure — when the marker is correct it returns a record populated from the
envelope with every absent field defaulted (identity fields to `""`, the
timestamp to the current instant). -/
theorem spec_c7_normalizer (now_iso : String) (event : InboundEvent) :
    (parse_compliance_event now_iso event = none ↔
      event.detail.bind EventDetail.messageType ≠ some "ComplianceChangeNotification") ∧
    (∀ d, event.detail = some d →
      d.messageType = some "ComplianceChangeNotification" →
      parse_compliance_event now_iso event =
        some { account_id := event.account.getD "",
               region := event.region.getD "",
               resource_id := d.resourceId.getD "",
               resource_type := d.resourceType.getD "",
               rule_name := d.configRuleName.getD "",
               compliance_type :=
                 ((d.newEvaluationResult.map EvalResult.complianceType).getD none).getD "",
               annot := ((d.newEvaluationResult.map EvalResult.annot).getD none).getD "",
               timestamp := event.time.getD now_iso,
               event_id := event.id.getD "",
               severity := none, exception_applied := false,
               exception_reason := "" }) := by
  constructor
  · cases hd : event.detail with
    | none => simp [parse_compliance_event, hd]
    | some d =>
      by_cases hm : d.messageType = some "ComplianceChangeNotification"
      · simp [parse_compliance_event, hd, hm]
      · simp [parse_compliance_event, hd, hm]
  · intro d hd hm
    simp [parse_compliance_event, hd, hm]

/-- An envelope with the wrong message-type marker, for the C7 witness. -/
def c7_bad_event : InboundEvent :=
  { account := some "111122223333", region := some "us-east-1",
    time := some "2024-01-01T00:00:00Z", id := some "event-2",
    detail := some
      { messageType := some "ConfigurationItemChangeNotification",
        resourceId := some "i-1", resourceType := some "AWS::EC2::Instance",
        configRuleName := some "required-tags",
        newEvaluationResult := some
          { complianceType := some "NON_COMPLIANT", annot := some "x" } } }

/-- C7 amended-claim witness: the theorem evaluated on a wrong-marker
envelope (rejected) and on the marker-correct envelope with a missing
account field (accepted and defaulted). -/
theorem spec_c7_normalizer_witness :
    parse_compliance_event "NOW" c7_bad_event = none ∧
    parse_compliance_event "NOW" c7_event =
      some { account_id := "", region := "us-east-1", resource_id := "i-1",
             resource_type := "AWS::EC2::Instance", rule_name := "required-tags",
             compliance_type := "NON_COMPLIANT", annot := "x",
             timestamp := "2024-01-01T00:00:00Z", event_id := "event-1",
             severity := none, exception_applied := false,
             exception_reason := "" } :=
  ⟨(spec_c7_normalizer "NOW" c7_bad_event).1.mpr (by decide),
   (spec_c7_normalizer "NOW" c7_event).2 _ rfl rfl⟩

/-! ## Claims about the exception-diversion path of the policy engine -/

/-- The enrichment the handler applies before persisting an excepted record
(policy engine, lines 112-113). -/
def with_exception (data : ViolationRecord) (exc : ExceptionItem) : ViolationRecord :=
  { data with exception_applied := true, exception_reason := exc.reason }

/-- C6: a NON_COMPLIANT violation holding an approved, unexpired exception is
persisted to history with `exception_applied = true` and the exception
reason, the handler returns a success status, and neither the remediation
nor the notification collaborator is invoked (the effect list is empty). -/
theorem spec_c6_exception_divert (cfg : PEConfig) (w : PEWorld)
    (tbl : HistoryTable) (event : InboundEvent) (data : ViolationRecord)
    (exc : ExceptionItem)
    (hparse : parse_compliance_event w.now_iso event = some data)
    (hnc : data.compliance_type = "NON_COMPLIANT")
    (hexc : check_exception cfg.exceptions w.now data.account_id
      data.resource_id data.rule_name = some exc)
    (hfault : w.persistFault = none)
    (hfresh : tbl.lookup (history_key data) = none) :
    pe_lambda_handler cfg w tbl event =
      ((history_key (with_exception data exc),
        mk_history_item w.now w.processed_at (with_exception data exc)) :: tbl,
       [], .returned 200 (.skippedException exc.reason exc.approved_by)) ∧
    (mk_history_item w.now w.processed_at (with_exception data exc)).exception_applied
      = true ∧
    (mk_history_item w.now w.processed_at (with_exception data exc)).exception_reason
      = exc.reason := by
  have hkey : history_key (with_exception data exc) = history_key data := rfl
  have hlit : ({ data with exception_applied := true, exception_reason := exc.reason } : ViolationRecord) = with_exception data exc := rfl
  have hpersist : persist_compliance_record w.persistFault w.now w.processed_at tbl
      (with_exception data exc) =
      ((history_key (with_exception data exc),
        mk_history_item w.now w.processed_at (with_exception data exc)) :: tbl,
       .success) := by
    rw [hfault]
    unfold persist_compliance_record
    rw [hkey, hfresh]
    rfl
  have hcond : ¬(data.compliance_type ≠ "NON_COMPLIANT") := by simp [hnc]
  refine ⟨?_, rfl, rfl⟩
  unfold pe_lambda_handler
  rw [hparse]
  dsimp only
  rw [if_neg hcond]
  rw [hexc]
  dsimp only
  rw [hlit, hpersist]

/-- Exception item for the C6 witness. -/
def c6_exc : ExceptionItem :=
  { status := "approved", expires_at := none,
    reason := "pilot fleet", approved_by := "secops" }

/-- Exceptions backend for the C6 witness: every lookup finds `c6_exc`. -/
def c6_backend : ExceptionsBackend :=
  { configured := true, get_item := fun _ _ => .ok (some c6_exc) }

/-- Policy-engine configuration for the C6 witness. -/
def c6_cfg : PEConfig :=
  { exceptions := c6_backend, remediation_lambda := "remediation-func",
    notification_lambda := "notification-func" }

/-- World for the C6 witness: no faults. -/
def c6_world : PEWorld :=
  { now := 1000, now_iso := "2024-01-01T00:00:00Z",
    processed_at := "2024-01-01T00:00:01Z", persistFault := none,
    remediationInvokeErr := false, notificationInvokeErr := false }

/-- Inbound event for the C6 witness. -/
def c6_event : InboundEvent :=
  { account := some "123456789012", region := some "us-east-1",
    time := some "2024-01-01T00:00:00Z", id := some "event-123",
    detail := some
      { messageType := some "ComplianceChangeNotification",
        resourceId := some "i-12345", resourceType := some "AWS::EC2::Instance",
        configRuleName := some "required-tags",
        newEvaluationResult := some
          { complianceType := some "NON_COMPLIANT", annot := some "Missing tags" } } }

/-- The record `c6_event` parses to. -/
def c6_data : ViolationRecord :=
  { account_id := "123456789012", region := "us-east-1", resource_id := "i-12345",
    resource_type := "AWS::EC2::Instance", rule_name := "required-tags",
    compliance_type := "NON_COMPLIANT", annot := "Missing tags",
    timestamp := "2024-01-01T00:00:00Z", event_id := "event-123",
    severity := none, exception_applied := false, exception_reason := "" }

/-- C6 witness: the theorem evaluated on a concrete excepted violation. -/
theorem spec_c6_exception_divert_witness :
    pe_lambda_handler c6_cfg c6_world [] c6_event =
      ((history_key (with_exception c6_data c6_exc),
        mk_history_item c6_world.now c6_world.processed_at
          (with_exception c6_data c6_exc)) :: [],
       [], .returned 200 (.skippedException c6_exc.reason c6_exc.approved_by)) ∧
    (mk_history_item c6_world.now c6_world.processed_at
      (with_exception c6_data c6_exc)).exception_applied = true :=
  ⟨(spec_c6_exception_divert c6_cfg c6_world [] c6_event c6_data c6_exc
      (by decide) rfl (by decide) rfl rfl).1,
   (spec_c6_exception_divert c6_cfg c6_world [] c6_event c6_data c6_exc
      (by decide) rfl (by decide) rfl rfl).2.1⟩

/-! ## Claims about the remediation engine's production-safety veto -/

/-- C1: a well-formed remediation request for one of the two guarded rule
families on a production account is never remediated — no role assumption,
no security-group call, indeed no remediation effect at all: the effect list
is exactly one notification whose compliance data is escalated to severity
HIGH with the blocking annotation — and the handler returns statusCode 200.
Stated under a configured notification channel whose dispatch succeeds; the
swallowed-dispatch-failure case is the subject of C10. -/
theorem spec_c1_prod_veto (cfg : REConfig) (w : REWorld) (event : REEvent)
    (hact : event.action = "remediate")
    (ha : event.compliance_data.account_id ≠ "")
    (hres : event.compliance_data.resource_id ≠ "")
    (hreg : event.compliance_data.region ≠ "")
    (hrule : event.compliance_data.rule_name = "restricted-ssh" ∨
      event.compliance_data.rule_name = "restricted-rdp")
    (hprod : is_production_account cfg event.compliance_data.account_id = true)
    (hconf : cfg.notification_lambda ≠ "")
    (hok : w.notifyInvokeErr = false) :
    ∃ payload,
      re_lambda_handler cfg w event =
        ([.notified payload], .returned 200 .prodSafetyNotified) ∧
      payload.severity = "HIGH" ∧
      payload.annot =
        "Production safety: SG remediation blocked. Manual intervention required." ∧
      payload.account_id = event.compliance_data.account_id ∧
      payload.rule_name = event.compliance_data.rule_name ∧
      payload.resource_id = event.compliance_data.resource_id ∧
      payload.region = event.compliance_data.region ∧
      payload.resource_type = event.compliance_data.resource_type := by
  have hne : ¬(event.action ≠ "remediate") := by simp [hact]
  have hru : event.compliance_data.rule_name ≠ "" := by
    rcases hrule with h | h <;> simp [h]
  have hmiss : ¬(event.compliance_data.account_id = "" ∨
      event.compliance_data.rule_name = "" ∨
      event.compliance_data.resource_id = "" ∨
      event.compliance_data.region = "") := by
    push_neg
    exact ⟨ha, hru, hres, hreg⟩
  have hveto : (event.compliance_data.rule_name = "restricted-ssh" ∨
      event.compliance_data.rule_name = "restricted-rdp") ∧
      is_production_account cfg event.compliance_data.account_id := by
    exact ⟨hrule, hprod⟩
  have hhandler : re_lambda_handler cfg w event =
      ([.notified { event.compliance_data with severity := "HIGH", annot := "Production safety: SG remediation blocked. Manual intervention required." }],
       .returned 200 .prodSafetyNotified) := by
    unfold re_lambda_handler
    rw [if_neg hne, if_neg hmiss, if_pos hveto]
    unfold notify_instead_of_remediate
    rw [if_neg hconf, hok]
    rfl
  exact ⟨_, hhandler, rfl, rfl, rfl, rfl, rfl, rfl, rfl⟩

/-- Production-guarded configuration for the C1 witness. -/
def c1_cfg : REConfig :=
  { remediation_role_name := "CloudGovernanceRemediationRole",
    external_id := "CloudGovernance-Remediation-2024",
    notification_lambda := "notification-func",
    account_environment_map := [("999988887777", "prod"), ("111122223333", "dev")],
    prod_account_id := "999988887777" }

/-- Fault-free world for the C1 witness. -/
def c1_world : REWorld :=
  { assumeRoleErr := false, actionErr := false, notifyInvokeErr := false,
    securityGroups := fun _ => none, currentTags := fun _ => [] }

/-- A guarded-rule request against the production account, for C1. -/
def c1_event : REEvent :=
  { action := "remediate",
    compliance_data :=
      { account_id := "999988887777", rule_name := "restricted-ssh",
        resource_id := "sg-0123", region := "us-east-1",
        resource_type := "AWS::EC2::SecurityGroup", severity := "LOW",
        annot := "open SSH" } }

/-- C1 witness: the theorem evaluated on the concrete production request. -/
theorem spec_c1_prod_veto_witness :
    ∃ payload,
      re_lambda_handler c1_cfg c1_world c1_event =
        ([.notified payload], .returned 200 .prodSafetyNotified) ∧
      payload.severity = "HIGH" ∧
      payload.annot =
        "Production safety: SG remediation blocked. Manual intervention required." ∧
      payload.account_id = c1_event.compliance_data.account_id ∧
      payload.rule_name = c1_event.compliance_data.rule_name ∧
      payload.resource_id = c1_event.compliance_data.resource_id ∧
      payload.region = c1_event.compliance_data.region ∧
      payload.resource_type = c1_event.compliance_data.resource_type :=
  spec_c1_prod_veto c1_cfg c1_world c1_event rfl (by decide) (by decide)
    (by decide) (Or.inl rfl) (by decide) (by decide) rfl

/-- C10: in the production-safety veto branch, a failed notification dispatch
is swallowed: when the notification Lambda is unconfigured, or its invocation
raises a `ClientError`, the handler emits no effect at all — the vetoed
violation is neither remediated nor notified — and still returns
statusCode 200. -/
theorem spec_c10_veto_dispatch_swallowed (cfg : REConfig) (w : REWorld)
    (event : REEvent)
    (hact : event.action = "remediate")
    (ha : event.compliance_data.account_id ≠ "")
    (hres : event.compliance_data.resource_id ≠ "")
    (hreg : event.compliance_data.region ≠ "")
    (hrule : event.compliance_data.rule_name = "restricted-ssh" ∨
      event.compliance_data.rule_name = "restricted-rdp")
    (hprod : is_production_account cfg event.compliance_data.account_id = true)
    (hfail : cfg.notification_lambda = "" ∨ w.notifyInvokeErr = true) :
    re_lambda_handler cfg w event = ([], .returned 200 .prodSafetyNotified) := by
  have hne : ¬(event.action ≠ "remediate") := by simp [hact]
  have hru : event.compliance_data.rule_name ≠ "" := by
    rcases hrule with h | h <;> simp [h]
  have hmiss : ¬(event.compliance_data.account_id = "" ∨
      event.compliance_data.rule_name = "" ∨
      event.compliance_data.resource_id = "" ∨
      event.compliance_data.region = "") := by
    push_neg
    exact ⟨ha, hru, hres, hreg⟩
  have hveto : (event.compliance_data.rule_name = "restricted-ssh" ∨
      event.compliance_data.rule_name = "restricted-rdp") ∧
      is_production_account cfg event.compliance_data.account_id := by
    exact ⟨hrule, hprod⟩
  have hnotify : notify_instead_of_remediate cfg w.notifyInvokeErr
      event.compliance_data "Production safety: SG remediation blocked" = [] := by
    unfold notify_instead_of_remediate
    rcases hfail with h | h
    · rw [if_pos h]
    · by_cases hc : cfg.notification_lambda = ""
      · rw [if_pos hc]
      · rw [if_neg hc, h]
        rfl
  unfold re_lambda_handler
  rw [if_neg hne, if_neg hmiss, if_pos hveto, hnotify]

/-- Unconfigured-notification configuration for the C10 witness. -/
def c10_cfg : REConfig :=
  { remediation_role_name := "CloudGovernanceRemediationRole",
    external_id := "CloudGovernance-Remediation-2024",
    notification_lambda := "",
    account_environment_map := [("999988887777", "prod")],
    prod_account_id := "999988887777" }

/-- World for the C10 witness. -/
def c10_world : REWorld :=
  { assumeRoleErr := false, actionErr := false, notifyInvokeErr := false,
    securityGroups := fun _ => none, currentTags := fun _ => [] }

/-- Guarded-rule production request for the C10 witness. -/
def c10_event : REEvent :=
  { action := "remediate",
    compliance_data :=
      { account_id := "999988887777", rule_name := "restricted-rdp",
        resource_id := "sg-0456", region := "us-east-1",
        resource_type := "AWS::EC2::SecurityGroup", severity := "LOW",
        annot := "open RDP" } }

/-- C10 witness: with the notification Lambda unconfigured, the vetoed
production violation yields no effect and still reports success. -/
theorem spec_c10_veto_dispatch_swallowed_witness :
    re_lambda_handler c10_cfg c10_world c10_event =
      ([], .returned 200 .prodSafetyNotified) :=
  spec_c10_veto_dispatch_swallowed c10_cfg c10_world c10_event rfl (by decide)
    (by decide) (by decide) (Or.inr rfl) (by decide) (Or.inl rfl)

/-! ## Claims about security-group ingress revocation -/

/-- C2: ingress revocation computes exactly the rule entries to revoke whose
(defaulted) port range covers the target port of the rule family — 22 for
`restricted-ssh`, 3389 for `restricted-rdp`; a permission that omits its port
bounds reads as the range [0, 0] per the source's dict-get default — and
whose source is one unrestricted address block (`0.0.0.0/0` or `::/0`). Each
element carries a single CIDR (one `revoke_security_group_ingress` call per
entry, never the whole rule set), and no entry failing either condition is
ever produced. -/
theorem spec_c2_ingress_revocation (rule_name : String) (tp : Int)
    (hrt : rule_name = "restricted-ssh" ∧ tp = 22 ∨
      rule_name = "restricted-rdp" ∧ tp = 3389)
    (perms : List IpPermission) (e : RevokeEntry) :
    e ∈ rules_to_revoke rule_name perms ↔
      ∃ r ∈ perms,
        e.ipProtocol = r.IpProtocol.getD "tcp" ∧
        e.fromPort = r.FromPort.getD 0 ∧
        e.toPort = r.ToPort.getD 0 ∧
        e.fromPort ≤ tp ∧ tp ≤ e.toPort ∧
        ((∃ c, e.source = RevokeSource.v4 c ∧ c ∈ dangerous_cidrs ∧
            some c ∈ r.IpRanges.map IpRange.CidrIp) ∨
         (∃ c, e.source = RevokeSource.v6 c ∧ c ∈ dangerous_cidrs ∧
            some c ∈ r.Ipv6Ranges.map Ipv6Range.CidrIpv6)) := by
  have htp : target_port rule_name = tp := by
    rcases hrt with ⟨h1, h2⟩ | ⟨h1, h2⟩ <;> subst h1 <;> subst h2 <;> decide
  unfold rules_to_revoke
  simp only [htp, List.mem_flatMap]
  constructor
  · rintro ⟨r, hr, he⟩
    refine ⟨r, hr, ?_⟩
    by_cases hcov : r.FromPort.getD 0 ≤ tp ∧ tp ≤ r.ToPort.getD 0
    · rw [if_pos hcov] at he
      rcases List.mem_append.mp he with h4 | h6
      · obtain ⟨ir, hirm, hf⟩ := List.mem_filterMap.mp h4
        cases hcid : ir.CidrIp with
        | none =>
          rw [hcid] at hf
          exact absurd hf (by simp)
        | some c =>
          rw [hcid] at hf
          dsimp only at hf
          by_cases hd : c ∈ dangerous_cidrs
          · rw [if_pos hd] at hf
            injection hf with hf
            subst hf
            exact ⟨rfl, rfl, rfl, hcov.1, hcov.2,
              Or.inl ⟨c, rfl, hd, List.mem_map.mpr ⟨ir, hirm, hcid⟩⟩⟩
          · rw [if_neg hd] at hf
            exact absurd hf (by simp)
      · obtain ⟨ir, hirm, hf⟩ := List.mem_filterMap.mp h6
        cases hcid : ir.CidrIpv6 with
        | none =>
          rw [hcid] at hf
          exact absurd hf (by simp)
        | some c =>
          rw [hcid] at hf
          dsimp only at hf
          by_cases hd : c ∈ dangerous_cidrs
          · rw [if_pos hd] at hf
            injection hf with hf
            subst hf
            exact ⟨rfl, rfl, rfl, hcov.1, hcov.2,
              Or.inr ⟨c, rfl, hd, List.mem_map.mpr ⟨ir, hirm, hcid⟩⟩⟩
          · rw [if_neg hd] at hf
            exact absurd hf (by simp)
    · rw [if_neg hcov] at he
      exact absurd he (by simp)
  · rintro ⟨r, hr, hip, hfp, htpo, hc1, hc2, hsrc⟩
    refine ⟨r, hr, ?_⟩
    obtain ⟨ep, ef, et, es⟩ := e
    dsimp only at hip hfp htpo hc1 hc2 hsrc
    subst hip
    subst hfp
    subst htpo
    rw [if_pos ⟨hc1, hc2⟩]
    rcases hsrc with ⟨c, hes, hd, hmem⟩ | ⟨c, hes, hd, hmem⟩
    · subst hes
      apply List.mem_append.mpr
      left
      obtain ⟨ir, hirm, hcid⟩ := List.mem_map.mp hmem
      refine List.mem_filterMap.mpr ⟨ir, hirm, ?_⟩
      rw [show ir.CidrIp = some c from hcid]
      dsimp only
      rw [if_pos hd]
    · subst hes
      apply List.mem_append.mpr
      right
      obtain ⟨ir, hirm, hcid⟩ := List.mem_map.mp hmem
      refine List.mem_filterMap.mpr ⟨ir, hirm, ?_⟩
      rw [show ir.CidrIpv6 = some c from hcid]
      dsimp only
      rw [if_pos hd]

/-- A permission open to the world on port 22 (IPv4 and IPv6), with one
restricted CIDR alongside, for the C2 witness. -/
def c2_perm_ssh : IpPermission :=
  { IpProtocol := some "tcp", FromPort := some 22, ToPort := some 22,
    IpRanges := [{ CidrIp := some "0.0.0.0/0" }, { CidrIp := some "10.0.0.0/8" }],
    Ipv6Ranges := [{ CidrIpv6 := some "::/0" }] }

/-- An unrelated world-open permission on port 443, for the C2 witness. -/
def c2_perm_https : IpPermission :=
  { IpProtocol := some "tcp", FromPort := some 443, ToPort := some 443,
    IpRanges := [{ CidrIp := some "0.0.0.0/0" }], Ipv6Ranges := [] }

/-- The ingress rule set of the C2 witness security group. -/
def c2_perms : List IpPermission := [c2_perm_ssh, c2_perm_https]

/-- C2 witness: on the concrete rule set, the world-open port-22 entry is
revoked and the world-open port-443 entry is not. -/
theorem spec_c2_ingress_revocation_witness :
    RevokeEntry.mk "tcp" 22 22 (RevokeSource.v4 "0.0.0.0/0") ∈
      rules_to_revoke "restricted-ssh" c2_perms ∧
    RevokeEntry.mk "tcp" 443 443 (RevokeSource.v4 "0.0.0.0/0") ∉
      rules_to_revoke "restricted-ssh" c2_perms := by
  constructor
  · exact (spec_c2_ingress_revocation "restricted-ssh" 22 (Or.inl ⟨rfl, rfl⟩)
      c2_perms (RevokeEntry.mk "tcp" 22 22 (RevokeSource.v4 "0.0.0.0/0"))).mpr
      ⟨c2_perm_ssh, by decide, rfl, rfl, rfl, by decide, by decide,
       Or.inl ⟨"0.0.0.0/0", rfl, by decide, by decide⟩⟩
  · intro h
    obtain ⟨r, -, -, -, -, hc1, -, -⟩ :=
      (spec_c2_ingress_revocation "restricted-ssh" 22 (Or.inl ⟨rfl, rfl⟩)
        c2_perms (RevokeEntry.mk "tcp" 443 443 (RevokeSource.v4 "0.0.0.0/0"))).mp h
    exact absurd hc1 (by decide)

/-! ## Claims about default-tag remediation -/

/-- Looking up a key of the left part of an appended association list ignores
the right part. -/
theorem lookup_append_left {β : Type} (k : String) (l1 l2 : List (String × β))
    (h : k ∈ l1.map Prod.fst) : (l1 ++ l2).lookup k = l1.lookup k := by
  induction l1 with
  | nil => simp at h
  | cons a t ih =>
    obtain ⟨a1, a2⟩ := a
    by_cases hk : k = a1
    · subst hk
      simp [List.lookup]
    · have hb : (k == a1) = false := beq_eq_false_iff_ne.mpr hk
      simp only [List.map_cons, List.mem_cons] at h
      rcases h with h | h
      · exact absurd h hk
      · simp only [List.cons_append, List.lookup]
        rw [hb]
        exact ih h

/-- Looking up a key absent from the left part of an appended association
list falls through to the right part. -/
theorem lookup_append_right {β : Type} (k : String) (l1 l2 : List (String × β))
    (h : k ∉ l1.map Prod.fst) : (l1 ++ l2).lookup k = l2.lookup k := by
  induction l1 with
  | nil => rfl
  | cons a t ih =>
    obtain ⟨a1, a2⟩ := a
    simp only [List.map_cons, List.mem_cons] at h
    push_neg at h
    have hb : (k == a1) = false := beq_eq_false_iff_ne.mpr h.1
    simp only [List.cons_append, List.lookup]
    rw [hb]
    exact ih h.2

/-- Filtering by a predicate that holds on every pair with key `k` does not
change what `k` looks up to. -/
theorem lookup_filter_of_key_true {β : Type} (k : String)
    (l : List (String × β)) (p : String × β → Bool)
    (hp : ∀ v, p (k, v) = true) : (l.filter p).lookup k = l.lookup k := by
  induction l with
  | nil => rfl
  | cons a t ih =>
    obtain ⟨a1, a2⟩ := a
    by_cases hk : k = a1
    · subst hk
      rw [List.filter_cons, if_pos (by simp [hp a2])]
      simp [List.lookup]
    · have hb : (k == a1) = false := beq_eq_false_iff_ne.mpr hk
      rw [List.filter_cons]
      cases hpa : p (a1, a2) with
      | false =>
        rw [if_neg (by simp [hpa])]
        rw [ih]
        simp only [List.lookup]
        rw [hb]
      | true =>
        rw [if_pos (by simp [hpa])]
        simp only [List.lookup]
        rw [hb, ih]

/-- The tag merge keeps every existing key's value and gives absent keys the
value of the added set. -/
theorem merge_tags_lookup (current add : List (String × String)) :
    (∀ k, k ∈ current.map Prod.fst →
      (merge_tags current add).lookup k = current.lookup k) ∧
    (∀ k, k ∉ current.map Prod.fst →
      (merge_tags current add).lookup k = add.lookup k) := by
  constructor
  · intro k hk
    exact lookup_append_left k _ _ hk
  · intro k hk
    unfold merge_tags
    rw [lookup_append_right k _ _ hk]
    apply lookup_filter_of_key_true
    intro v
    have hc : ((current.map Prod.fst).contains k) = false := by
      simpa using hk
    show (!((current.map Prod.fst).contains k)) = true
    rw [hc]
    rfl

/-- C8: whenever `remediate_required_tags` produces a final tag set (every
known resource type, each merging via the in-source S3 read-modify-write or
the spec-modelled preserving AWS merge), every tag key already on the
resource keeps its existing value, and a key absent from the resource
resolves to the environment's fixed default tag set. -/
theorem spec_c8_default_tags_preserve (resource_type environment : String)
    (current finalTags : List (String × String))
    (h : remediate_required_tags resource_type environment current = some finalTags) :
    (∀ k, k ∈ current.map Prod.fst → finalTags.lookup k = current.lookup k) ∧
    (∀ k, k ∉ current.map Prod.fst →
      finalTags.lookup k = (get_tags_for_environment environment).lookup k) := by
  simp only [remediate_required_tags] at h
  split_ifs at h
  all_goals injection h with h
  all_goals subst h
  all_goals exact merge_tags_lookup current _

/-- The merged tag set of the C8 witness: current tags first, then the dev
defaults whose keys are new. -/
def c8_final : List (String × String) :=
  [("Owner", "alice"), ("Team", "search"), ("CostCenter", "DEV-001"),
   ("Project", "CloudGovernancePlatform"), ("Environment", "dev"),
   ("ManagedBy", "Terraform")]

/-- C8 witness: tagging an S3 bucket in the dev environment preserves the
already-present Owner tag and adds the dev CostCenter. -/
theorem spec_c8_default_tags_preserve_witness :
    c8_final.lookup "Owner" =
      ([("Owner", "alice"), ("Team", "search")] : List (String × String)).lookup "Owner" ∧
    c8_final.lookup "CostCenter" = (get_tags_for_environment "dev").lookup "CostCenter" :=
  ⟨(spec_c8_default_tags_preserve "AWS::S3::Bucket" "dev"
      [("Owner", "alice"), ("Team", "search")] c8_final (by decide)).1 "Owner" (by decide),
   (spec_c8_default_tags_preserve "AWS::S3::Bucket" "dev"
      [("Owner", "alice"), ("Team", "search")] c8_final (by decide)).2 "CostCenter" (by decide)⟩
